import Mathlib

/-!
Verification development for the AISP trusted evaluator dispatch pipeline.

The embedding covers, faithfully to the Python sources:
  * `aisp/benchmark/evaluator.py` — `LocalEvaluatorRunner._verify_integrity`
    and `LocalEvaluatorRunner.run` (the dispatch pipeline);
  * `aisp/benchmark/evaluaters_examples/swe_bench_v1.py` —
    `SpecificEvaluator.__init__` and `SpecificEvaluator.evaluate`;
  * `aisp/benchmark/suites.py` — the task data model and
    `BenchmarkSuite.load_from_directory` / `get_task` / `list_tasks`;
  * `aisp/protocols/output.py` — `PerformanceMetrics`, the payload union and
    `ResearchOutput`.

Modelling conventions:
  * Machine integers are `Nat` with explicit reduction modulo 2^32 where the
    hash arithmetic overflows; file bytes are `List Nat`.
  * The file system is an association list from path strings to byte contents;
    `open(p, "w")` is modelled by prepending, so the newest write shadows
    older ones, and `Path.exists` is a lookup test.  Directory creation
    (`mkdir(exist_ok=True)`) has no observable effect in this model.
  * Raised Python exceptions become `Except` errors with one constructor per
    raise site (the Python exception class and message make the sites
    distinguishable at runtime, so distinct constructors are faithful).
  * `run` receives its argument the way Python does — duck typed.  The runner
    reads the attributes `research_type`, `payload.performance_gain`,
    `payload.modified_code_dir` and `request_id`; an attribute that the passed
    object does not carry is an `Option` that is `none`, and reading it raises
    `AttributeError`.  The protocol model `ResearchOutput` from
    `aisp/protocols/output.py` is embedded separately and injected into the
    duck-typed view by `ResearchOutput.toRunnerInput`, which in particular has
    no `research_type` attribute to offer.
  * `importlib.import_module` consults a table of importable modules held in
    the `World`; the only evaluator module in the repository is
    `swe_bench_v1.py`, whose behaviour is embedded directly.
  * `Path.resolve()` is the identity (paths are used verbatim), and
    `Path.relative_to` / `parts` / `str.replace` are carried out on the
    character list of the joined path.
-/

/-! ## SHA-256 and SHA-1 over byte strings

`_verify_integrity` calls `hashlib.sha256` on the artifact bytes; the digest
computation is embedded executably so that concrete integrity checks evaluate
inside the logic.  SHA-1 is included because the spec reads the algorithm off
the prefix of `expected_hash`, and refuting that reading needs a second
standard `hashlib` algorithm to be available in the model. -/

/-- Truncate to a 32-bit machine word. -/
def w32 (x : Nat) : Nat := x % 4294967296

/-- 32-bit rotate right. -/
def rotr32 (n x : Nat) : Nat := w32 ((x >>> n) ||| (x <<< (32 - n)))

/-- 32-bit rotate left. -/
def rotl32 (n x : Nat) : Nat := w32 ((x <<< n) ||| (x >>> (32 - n)))

/-- The 64 SHA-256 round constants. -/
def sha256K : List Nat :=
  [1116352408, 1899447441, 3049323471, 3921009573, 961987163,
   1508970993, 2453635748, 2870763221, 3624381080, 310598401,
   607225278, 1426881987, 1925078388, 2162078206, 2614888103,
   3248222580, 3835390401, 4022224774, 264347078, 604807628,
   770255983, 1249150122, 1555081692, 1996064986, 2554220882,
   2821834349, 2952996808, 3210313671, 3336571891, 3584528711,
   113926993, 338241895, 666307205, 773529912, 1294757372,
   1396182291, 1695183700, 1986661051, 2177026350, 2456956037,
   2730485921, 2820302411, 3259730800, 3345764771, 3516065817,
   3600352804, 4094571909, 275423344, 430227734, 506948616,
   659060556, 883997877, 958139571, 1322822218, 1537002063,
   1747873779, 1955562222, 2024104815, 2227730452, 2361852424,
   2428436474, 2756734187, 3204031479, 3329325298]

/-- The SHA-256 initial hash state. -/
def sha256Init : List Nat :=
  [1779033703, 3144134277, 1013904242, 2773480762,
   1359893119, 2600822924, 528734635, 1541459225]

/-- A 64-bit value as 8 big-endian bytes. -/
def toBE64 (n : Nat) : List Nat :=
  [(n >>> 56) % 256, (n >>> 48) % 256, (n >>> 40) % 256, (n >>> 32) % 256,
   (n >>> 24) % 256, (n >>> 16) % 256, (n >>> 8) % 256, n % 256]

/-- A 32-bit value as 4 big-endian bytes. -/
def toBE32 (n : Nat) : List Nat :=
  [(n >>> 24) % 256, (n >>> 16) % 256, (n >>> 8) % 256, n % 256]

/-- Merkle–Damgård padding shared by SHA-1 and SHA-256: append 0x80, zero-fill
to 56 mod 64, then the bit length as 8 big-endian bytes. -/
def padMsg (msg : List Nat) : List Nat :=
  msg ++ 0x80 :: List.replicate ((119 - msg.length % 64) % 64) 0 ++ toBE64 (8 * msg.length)

/-- Big-endian bytes to 32-bit words. -/
def bytesToWords : List Nat → List Nat
  | a :: b :: c :: d :: rest => (a * 16777216 + b * 65536 + c * 256 + d) :: bytesToWords rest
  | _ => []

def sSigma0 (x : Nat) : Nat := rotr32 7 x ^^^ rotr32 18 x ^^^ (x >>> 3)
def sSigma1 (x : Nat) : Nat := rotr32 17 x ^^^ rotr32 19 x ^^^ (x >>> 10)
def bSigma0 (x : Nat) : Nat := rotr32 2 x ^^^ rotr32 13 x ^^^ rotr32 22 x
def bSigma1 (x : Nat) : Nat := rotr32 6 x ^^^ rotr32 11 x ^^^ rotr32 25 x

/-- SHA-256 message-schedule extension: produce `fuel` further words from a
sliding window of the last 16 (oldest first). -/
def sha256Extend : Nat → List Nat → List Nat
  | 0, _ => []
  | n + 1, win =>
    let nw := w32 (win.getD 0 0 + sSigma0 (win.getD 1 0) + win.getD 9 0 + sSigma1 (win.getD 14 0))
    nw :: sha256Extend n (win.drop 1 ++ [nw])

/-- One SHA-256 round on state `[a,b,c,d,e,f,g,h]`, fed `K[i] + W[i]`. -/
def sha256Round (st : List Nat) (kw : Nat) : List Nat :=
  match st with
  | [a, b, c, d, e, f, g, h] =>
    let ch := (e &&& f) ^^^ ((e ^^^ 0xffffffff) &&& g)
    let t1 := w32 (h + bSigma1 e + ch + kw)
    let t2 := w32 (bSigma0 a + ((a &&& b) ^^^ (a &&& c) ^^^ (b &&& c)))
    [w32 (t1 + t2), a, b, c, w32 (d + t1), e, f, g]
  | st => st

/-- Compress one 64-byte block into the SHA-256 chaining state. -/
def sha256Block (h : List Nat) (block : List Nat) : List Nat :=
  let w16 := bytesToWords block
  let ws := w16 ++ sha256Extend 48 w16
  let fin := ((sha256K.zip ws).map (fun p => w32 (p.1 + p.2))).foldl sha256Round h
  (h.zip fin).map (fun p => w32 (p.1 + p.2))

/-- Iterate a compression function over `n` 64-byte chunks. -/
def hashBlocks (f : List Nat → List Nat → List Nat) : Nat → List Nat → List Nat → List Nat
  | 0, _, h => h
  | n + 1, data, h => hashBlocks f n (data.drop 64) (f h (data.take 64))

/-- SHA-256 digest (32 bytes) of a byte string. -/
def sha256Bytes (msg : List Nat) : List Nat :=
  let padded := padMsg msg
  ((hashBlocks sha256Block (padded.length / 64) padded sha256Init).map toBE32).flatten

/-- The lowercase hex digit for a value below 16: digits, then letters from
codepoint 97. -/
def hexChar (n : Nat) : Char := if n < 10 then Char.ofNat (48 + n) else Char.ofNat (87 + n)

/-- One byte as two lowercase hex characters. -/
def byteToHex (b : Nat) : List Char := [hexChar (b / 16 % 16), hexChar (b % 16)]

/-- Lowercase hex digest string, as `hashlib.sha256(buf).hexdigest()`. -/
def sha256hex (msg : List Nat) : String := ⟨(sha256Bytes msg).map byteToHex |>.flatten⟩

/-- The SHA-1 initial hash state. -/
def sha1Init : List Nat := [1732584193, 4023233417, 2562383102, 271733878, 3285377520]

/-- SHA-1 message-schedule extension over a 16-word sliding window. -/
def sha1Extend : Nat → List Nat → List Nat
  | 0, _ => []
  | n + 1, win =>
    let nw := rotl32 1 (win.getD 13 0 ^^^ win.getD 8 0 ^^^ win.getD 2 0 ^^^ win.getD 0 0)
    nw :: sha1Extend n (win.drop 1 ++ [nw])

/-- One SHA-1 round; `iw` is the pair (round index, W[i]). -/
def sha1Round (st : List Nat) (iw : Nat × Nat) : List Nat :=
  match st with
  | [a, b, c, d, e] =>
    let i := iw.1
    let f :=
      if i < 20 then (b &&& c) ||| ((b ^^^ 0xffffffff) &&& d)
      else if i < 40 then b ^^^ c ^^^ d
      else if i < 60 then (b &&& c) ||| (b &&& d) ||| (c &&& d)
      else b ^^^ c ^^^ d
    let k :=
      if i < 20 then 0x5a827999
      else if i < 40 then 0x6ed9eba1
      else if i < 60 then 0x8f1bbcdc
      else 0xca62c1d6
    [w32 (rotl32 5 a + f + e + k + iw.2), a, rotl32 30 b, c, d]
  | st => st

/-- Compress one 64-byte block into the SHA-1 chaining state. -/
def sha1Block (h : List Nat) (block : List Nat) : List Nat :=
  let w16 := bytesToWords block
  let ws := w16 ++ sha1Extend 64 w16
  let fin := (List.range 80 |>.zip ws).foldl sha1Round h
  (h.zip fin).map (fun p => w32 (p.1 + p.2))

/-- SHA-1 digest (20 bytes) of a byte string. -/
def sha1Bytes (msg : List Nat) : List Nat :=
  let padded := padMsg msg
  ((hashBlocks sha1Block (padded.length / 64) padded sha1Init).map toBE32).flatten

/-- Lowercase hex SHA-1 digest string. -/
def sha1hex (msg : List Nat) : String := ⟨(sha1Bytes msg).map byteToHex |>.flatten⟩

/-! ## Association lists

Python dictionaries (`BenchmarkSuite._tasks`, the module table, the file
system) are modelled as association lists; lookup takes the first hit, and
writes that must overwrite prepend. -/

/-- First-hit lookup in an association list keyed by strings. -/
def alookup {α : Type} : List (String × α) → String → Option α
  | [], _ => none
  | (k, v) :: rest, key => if key = k then some v else alookup rest key

/-! ## Python exceptions

One constructor per raise site reached by the embedded code. -/

/-- The exceptions the embedded pipeline can raise.  `nameErrorSecurityError`
is the `NameError` that evaluating the expression `SecurityError(...)` raises
in `_verify_integrity`: the name `SecurityError` is neither defined nor brought
into scope anywhere in `evaluator.py`, so Python fails on the name lookup before
the message (with the expected and actual digests) is ever built. -/
inductive PyError : Type
  /-- `FileNotFoundError` from `_verify_integrity` when the artifact is absent. -/
  | fileNotFound (path : String)
  /-- `NameError: name SecurityError is not defined`, raised on digest mismatch. -/
  | nameErrorSecurityError
  /-- `AttributeError` from reading a missing attribute. -/
  | attributeError (attr : String)
  /-- `ValueError` from `run` for research types other than improvement and
  technique_report. -/
  | valueErrorNotApplicable (research_type : String)
  /-- `ValueError` from `run` when the task id is not in `StandardBenchmarks`. -/
  | valueErrorTaskNotFound (task_id : String)
  /-- `IndexError` from `performance_gain[0]` on an empty list. -/
  | indexError
  /-- `RuntimeError` from `run` when the evaluator module fails to import or
  has no `SpecificEvaluator` class. -/
  | runtimeErrorLoadFailed (module : String)
  /-- `EnvironmentError` from `SpecificEvaluator.__init__` when `SWE_BENCH_ENV`
  is unset. -/
  | environmentErrorEnvNotSet
  /-- `ValueError` from `BenchmarkSuite.load_from_directory` on a duplicate
  task id. -/
  | valueErrorDuplicateTask (task_id : String) (file : String)
  /-- pydantic `ValidationError` (or `json` decode error) while parsing a task
  record file. -/
  | validationError (file : String) (msg : String)
deriving DecidableEq

/-! ## Task data model (`aisp/benchmark/suites.py`) -/

structure SourceInfo where
  paper_title : String
  paper_url : String
  leaderboard_url : String
deriving DecidableEq

structure MetricInfo where
  name : String
  description : String
  higher_is_better : Bool
deriving DecidableEq

/-- `score : Dict[str, Any]` is modelled with rational scores and
`execution : Dict[str, str]` with string values. -/
structure SotaBaselineInfo where
  method_name : String
  method_id : String
  score : List (String × ℚ)
  method_summary : String
  execution : List (String × String)
deriving DecidableEq

structure LocalEvaluatorInfo where
  evaluator_name : String
  version : String
  /-- Path of the evaluator script, relative to `aisp/benchmark/`. -/
  code_path : String
  verification_hash : String
deriving DecidableEq

structure AispTask where
  task_id : String
  task_name : String
  version : String
  domain : String
  sub_domain : String
  task_description : String
  source : SourceInfo
  metrics : List MetricInfo
  sota_baseline : SotaBaselineInfo
  local_evaluator : LocalEvaluatorInfo
deriving DecidableEq

/-! ## Output protocol (`aisp/protocols/output.py`) -/

/-- `PerformanceMetrics`; `scores : Dict[str, Any]` is modelled with rational
values, and `raw_eval_log : FilePath` as the path string. -/
structure PerformanceMetrics where
  task_id : String
  scores : List (String × ℚ)
  raw_eval_log : String
deriving DecidableEq

/-- `PaperContent`; `figures` is a list of string-keyed dictionaries. -/
structure PaperContent where
  title : String
  authors : List String
  abstract : String
  content_markdown : String
  figures : List (List (String × String))
deriving DecidableEq

/-- The closed payload union of `ResearchOutput`, one variant per
`type : Literal[...]` tag.  Directory and file paths are path strings. -/
inductive ResearchOutputPayload : Type
  | improvement (performance_gain : List PerformanceMetrics)
      (modified_code_dir : String) (report : PaperContent)
  | findings (report : PaperContent) (experimental_data : String)
      (proposed_benchmark_package : Option String)
  | survey (report : PaperContent)
  | benchmark (benchmark_package : String) (report : PaperContent)
  | technique_report (performance_on_target_tasks : List PerformanceMetrics)
      (source_code_dir : String)
deriving DecidableEq

/-- The `type` tag of a payload variant. -/
def ResearchOutputPayload.typeTag : ResearchOutputPayload → String
  | .improvement .. => "improvement"
  | .findings .. => "findings"
  | .survey .. => "survey"
  | .benchmark .. => "benchmark"
  | .technique_report .. => "technique_report"

/-- The top-level `ResearchOutput` model: `request_id`, the payload union and
`logbook_path`.  It declares no `research_type` field. -/
structure ResearchOutput where
  request_id : String
  payload : ResearchOutputPayload
  logbook_path : String
deriving DecidableEq

/-! ## The duck-typed runner input

`LocalEvaluatorRunner.run` and `SpecificEvaluator.evaluate` read exactly the
attributes below from the object they are handed; `none` models an object
without that attribute, and reading it raises `AttributeError`. -/

/-- The attributes the pipeline reads off `research_output.payload`. -/
structure RunnerPayloadView where
  type : String
  performance_gain : Option (List PerformanceMetrics)
  modified_code_dir : Option String
deriving DecidableEq

/-- The attributes the pipeline reads off `research_output`. -/
structure RunnerInput where
  request_id : String
  research_type : Option String
  payload : RunnerPayloadView
deriving DecidableEq

/-- The payload union seen through the runner attribute view: only the
`improvement` variant carries `performance_gain` and `modified_code_dir`
(the `technique_report` variant names its metric list
`performance_on_target_tasks`, which is a different attribute). -/
def ResearchOutputPayload.toRunnerView : ResearchOutputPayload → RunnerPayloadView
  | .improvement pg dir _ =>
      { type := "improvement", performance_gain := some pg, modified_code_dir := some dir }
  | p => { type := p.typeTag, performance_gain := none, modified_code_dir := none }

/-- A protocol-model `ResearchOutput` as the runner sees it.  The model has no
top-level `research_type` field, so that attribute is absent. -/
def ResearchOutput.toRunnerInput (r : ResearchOutput) : RunnerInput :=
  { request_id := r.request_id
    research_type := none
    payload := r.payload.toRunnerView }

/-! ## File system and world -/

/-- The file system: path strings mapped to byte contents. -/
abbrev FileSys := List (String × List Nat)

/-- `open(p, "w")` followed by a write: the new content shadows any previous
file at the same path. -/
def fsWrite (fs : FileSys) (path : String) (content : List Nat) : FileSys :=
  (path, content) :: fs

/-- The closed set of importable evaluator modules: the repository ships
exactly one evaluator implementation, `swe_bench_v1.py`; a module may
also load fine yet lack the conventional `SpecificEvaluator` class. -/
inductive PyModule : Type
  | sweBenchV1Module
  | moduleWithoutSpecificEvaluator
deriving DecidableEq

/-- The ambient state `run` executes against: the file system, the
`StandardBenchmarks._tasks` index, the importable-module table and the
`SWE_BENCH_ENV` environment variable. -/
structure World where
  fs : FileSys
  suite : List (String × AispTask)
  modules : List (String × PyModule)
  swe_bench_env : Option String

/-! ## Integrity verification (`LocalEvaluatorRunner._verify_integrity`) -/

/-- `_verify_integrity`: raise `FileNotFoundError` if the artifact is absent;
hash the exact byte content with SHA-256; on mismatch evaluate
`raise SecurityError(...)`, which raises `NameError` because the name
`SecurityError` is undefined; otherwise return `True`. -/
def verify_integrity (fs : FileSys) (code_path : String) (expected_hash : String) :
    Except PyError Bool :=
  match alookup fs code_path with
  | none => .error (.fileNotFound code_path)
  | some buf =>
    let actual_hash := "sha256:" ++ sha256hex buf
    if actual_hash ≠ expected_hash then .error .nameErrorSecurityError
    else .ok true

/-! ## Module path computation

`run` turns the resolved script path into a module name with
`".".join(path.relative_to(benchmarks_root.parent).parts).replace(".py", "")`.
Paths are plain slash-separated strings here, `resolve()` is the identity, so
`relative_to(root.parent)` keeps the last component of the root, joining the
parts with dots is the slash-to-dot substitution, and `str.replace` removes
every (non-overlapping, left-to-right) occurrence of `.py`. -/

/-- The substring after the last slash. -/
def lastComponent (p : String) : String :=
  ⟨p.data.foldl (fun acc c => if c = '/' then [] else acc ++ [c]) []⟩

/-- Dots for slashes, as joining path parts with `"."`. -/
def slashToDot (cs : List Char) : List Char :=
  cs.map (fun c => if c = '/' then '.' else c)

/-- Remove every occurrence of `.py`, left to right, as
`str.replace(".py", "")`. -/
def removeDotPy : List Char → List Char
  | '.' :: 'p' :: 'y' :: rest => removeDotPy rest
  | c :: rest => c :: removeDotPy rest
  | [] => []

/-- The module name `run` derives from the benchmarks root and the configured
`code_path` of the task. -/
def modulePathOf (root code_path : String) : String :=
  ⟨removeDotPy (slashToDot (lastComponent root ++ "/" ++ code_path).data)⟩

/-! ## The SWE-bench example evaluator
(`aisp/benchmark/evaluaters_examples/swe_bench_v1.py`) -/

/-- The log path `SpecificEvaluator.evaluate` writes:
`Path("./eval_logs") / f"{request_id}_raw.log"`. -/
def logPathOf (request_id : String) : String :=
  "./eval_logs/" ++ request_id ++ "_raw.log"

/-- The mocked scores dictionary. -/
def mock_scores : List (String × ℚ) :=
  [("Resolved @1", 0.1386), ("Execution Time (s)", 1800)]

/-- The text `evaluate` writes into the log file. -/
def mockLog (request_id : String) : String :=
  "Mock evaluation log for request " ++ request_id ++ "\n" ++
    "Scores: \x7b\x27Resolved @1\x27: 0.1386, \x27Execution Time (s)\x27: 1800\x7d\n"

/-- ASCII text as file bytes. -/
def strBytes (s : String) : List Nat := s.data.map Char.toNat

/-- `SpecificEvaluator.__init__`: read `SWE_BENCH_ENV`, raising
`EnvironmentError` when it is unset; the instance keeps the bound task. -/
def specificEvaluatorInit (env : Option String) (task : AispTask) :
    Except PyError AispTask :=
  match env with
  | none => .error .environmentErrorEnvNotSet
  | some _ => .ok task

/-- `SpecificEvaluator.evaluate`: read `payload.modified_code_dir`, write the
mock log to `./eval_logs/{request_id}_raw.log`, and return a
`PerformanceMetrics` with the bound task id, the mock scores and that log
path. -/
def specificEvaluatorEvaluate (task : AispTask) (fs : FileSys) (ro : RunnerInput) :
    FileSys × Except PyError PerformanceMetrics :=
  match ro.payload.modified_code_dir with
  | none => (fs, .error (.attributeError "modified_code_dir"))
  | some _ =>
    let log := logPathOf ro.request_id
    (fsWrite fs log (strBytes (mockLog ro.request_id)),
     .ok { task_id := task.task_id, scores := mock_scores, raw_eval_log := log })

/-! ## The evaluation runner (`LocalEvaluatorRunner.run`) -/

/-- Observable pipeline events, for stating ordering and counting properties:
the catalog lookup, the integrity check, `importlib.import_module`,
`getattr(module, "SpecificEvaluator")`, the instantiation
`EvaluatorClass(task=task)` and the `evaluate` call. -/
inductive Event : Type
  | getTaskEvent (task_id : String)
  | verifyEvent (path : String) (expected : String)
  | importEvent (module : String)
  | getattrEvent (module : String)
  | instantiateEvent (module : String)
  | evaluateEvent (request_id : String)
deriving DecidableEq

deriving instance DecidableEq for Except

/-- Outcome of a `run` execution: the event trace, the final file system and
the returned metrics or raised exception. -/
structure RunResult where
  trace : List Event
  fs : FileSys
  result : Except PyError PerformanceMetrics
deriving DecidableEq

/-- Prefix a run outcome with earlier events. -/
def prependTrace (tr : List Event) (r : RunResult) : RunResult :=
  ⟨tr ++ r.trace, r.fs, r.result⟩

/-- Step 1 of `run`: read `research_output.research_type` (an
`AttributeError` on the protocol model, which has no such field), admit only
improvement and technique_report, then read
`research_output.payload.performance_gain[0].task_id` — for both admitted
types, including technique_report, whose protocol payload does not carry
`performance_gain`. -/
def extractTaskId (ro : RunnerInput) : Except PyError String :=
  match ro.research_type with
  | none => .error (.attributeError "research_type")
  | some rt =>
    if rt = "improvement" ∨ rt = "technique_report" then
      match ro.payload.performance_gain with
      | none => .error (.attributeError "performance_gain")
      | some [] => .error .indexError
      | some (m :: _) => .ok m.task_id
    else .error (.valueErrorNotApplicable rt)

/-- Step 3 of `run`: `importlib.import_module` on the derived module name,
`getattr(module, "SpecificEvaluator")` and `EvaluatorClass(task=task)` —
`ImportError` and `AttributeError` are caught and re-raised as
`RuntimeError`; then step 4 calls `evaluate` on the payload. -/
def loadAndRunEvaluator (w : World) (module_path : String) (task : AispTask)
    (ro : RunnerInput) : RunResult :=
  match alookup w.modules module_path with
  | none =>
    ⟨[.importEvent module_path], w.fs, .error (.runtimeErrorLoadFailed module_path)⟩
  | some .moduleWithoutSpecificEvaluator =>
    ⟨[.importEvent module_path, .getattrEvent module_path], w.fs,
     .error (.runtimeErrorLoadFailed module_path)⟩
  | some .sweBenchV1Module =>
    match specificEvaluatorInit w.swe_bench_env task with
    | .error e =>
      ⟨[.importEvent module_path, .getattrEvent module_path, .instantiateEvent module_path],
       w.fs, .error e⟩
    | .ok task =>
      let step := specificEvaluatorEvaluate task w.fs ro
      ⟨[.importEvent module_path, .getattrEvent module_path, .instantiateEvent module_path,
        .evaluateEvent ro.request_id], step.1, step.2⟩

/-- Steps 2b–4 of `run`, once the task is resolved: locate the artifact at
`benchmarks_root / code_path`, verify its integrity, and only on success load
and run the evaluator. -/
def verifyThenLoad (w : World) (root : String) (task : AispTask) (ro : RunnerInput) :
    RunResult :=
  let code_path := root ++ "/" ++ task.local_evaluator.code_path
  let expected := task.local_evaluator.verification_hash
  match verify_integrity w.fs code_path expected with
  | .error e => ⟨[.verifyEvent code_path expected], w.fs, .error e⟩
  | .ok _ =>
    prependTrace [.verifyEvent code_path expected]
      (loadAndRunEvaluator w (modulePathOf root task.local_evaluator.code_path) task ro)

/-- `LocalEvaluatorRunner.run`: extract the governing task id, look the task
up in `StandardBenchmarks` (raising `ValueError` if absent), then verify and
dispatch. -/
def run (w : World) (root : String) (ro : RunnerInput) : RunResult :=
  match extractTaskId ro with
  | .error e => ⟨[], w.fs, .error e⟩
  | .ok task_id =>
    match alookup w.suite task_id with
    | none => ⟨[.getTaskEvent task_id], w.fs, .error (.valueErrorTaskNotFound task_id)⟩
    | some task => prependTrace [.getTaskEvent task_id] (verifyThenLoad w root task ro)

/-! ## The benchmark suite (`BenchmarkSuite`) -/

/-- A task record file as the loader sees it: the file name and the result of
`json.load` plus `AispTask(**task_data)` — parsing is pydantic, external to
this core, so it enters as data. -/
abbrev TaskFile := String × Except String AispTask

/-- The loop body of `load_from_directory`: parse each file, raise
`ValueError` when the parsed `task_id` is already indexed (the check is
against everything inserted so far, `self._tasks`), otherwise insert.  The
accumulator is `self._tasks`, mutated in place, so it is returned as it
stands when an exception aborts the loop. -/
def loadTasks (acc : List (String × AispTask)) :
    List TaskFile → List (String × AispTask) × Option PyError
  | [] => (acc, none)
  | (fname, Except.error msg) :: _ => (acc, some (.validationError fname msg))
  | (fname, Except.ok task) :: rest =>
    if (alookup acc task.task_id).isSome then
      (acc, some (.valueErrorDuplicateTask task.task_id fname))
    else loadTasks (acc ++ [(task.task_id, task)]) rest

/-- `load_from_directory`: a missing directory only warns and returns; an
existing one is globbed into task files and folded by `loadTasks`. -/
def load_from_directory (tasks : List (String × AispTask))
    (dir : Option (List TaskFile)) : List (String × AispTask) × Option PyError :=
  match dir with
  | none => (tasks, none)
  | some files => loadTasks tasks files

/-- `BenchmarkSuite.get_task`. -/
def get_task (tasks : List (String × AispTask)) (task_id : String) : Option AispTask :=
  alookup tasks task_id

/-- `BenchmarkSuite.list_tasks`. -/
def list_tasks (tasks : List (String × AispTask)) : List AispTask :=
  tasks.map Prod.snd

/-- `BenchmarkSuite.list_tasks_by_domain`. -/
def list_tasks_by_domain (tasks : List (String × AispTask)) (domain : String) :
    List AispTask :=
  (tasks.map Prod.snd).filter (fun t => t.domain.toLower = domain.toLower)

/-! ## Classification helpers -/

/-- The faults `_verify_integrity` can raise: the missing-artifact
`FileNotFoundError` and the digest-mismatch raise. -/
def isIntegrityError : PyError → Bool
  | .fileNotFound _ => true
  | .nameErrorSecurityError => true
  | _ => false

/-- Whether a run outcome is an integrity fault. -/
def resultIsIntegrityError : Except PyError PerformanceMetrics → Bool
  | .error e => isIntegrityError e
  | .ok _ => false

/-- The load-time configuration faults of the suite loader: malformed record
or duplicate task id. -/
def isConfigurationFault : PyError → Bool
  | .valueErrorDuplicateTask _ _ => true
  | .validationError _ _ => true
  | _ => false

/-- Events that load or execute artifact code: the import, the class lookup,
the instantiation and the evaluate call. -/
def isCodeLoadEvent : Event → Bool
  | .importEvent _ => true
  | .getattrEvent _ => true
  | .instantiateEvent _ => true
  | .evaluateEvent _ => true
  | .getTaskEvent _ => false
  | .verifyEvent _ _ => false

/-- Count of evaluator instantiations in a trace, the instrumentation hook of
the testable property. -/
def instantiationCount (tr : List Event) : Nat :=
  tr.countP (fun e => match e with | .instantiateEvent _ => true | _ => false)

/-- Count of events that load or execute artifact code. -/
def codeLoadCount (tr : List Event) : Nat := tr.countP isCodeLoadEvent

/-! ## The spec-side integrity verifier, for the refinement comparison -/

/-- Modelled from the spec: the standard `hashlib` construction the spec
appeals to — the digest algorithm is named by the prefix of `expected_hash`
before the colon (`sha256` and `sha1` are the guaranteed `hashlib` algorithms
embedded here); anything else is unknown. -/
def algoOfName (name : String) : Option (List Nat → String) :=
  if name = "sha256" then some sha256hex
  else if name = "sha1" then some sha1hex
  else none

/-- The characters before the first colon. -/
def beforeColon : List Char → List Char
  | [] => []
  | c :: rest => if c = ':' then [] else c :: beforeColon rest

/-- Modelled from the spec: `verify(artifact, hash)` as §4.2 and §8 describe
it — compute the digest with the algorithm named by the prefix encoded in
`expected_hash` over the exact byte content, and return ok iff the
`algorithm:hexdigest` string equals `expected_hash`. -/
def specVerifyOk (fs : FileSys) (path : String) (expected_hash : String) : Bool :=
  match alookup fs path with
  | none => false
  | some content =>
    let algoName : String := ⟨beforeColon expected_hash.data⟩
    match algoOfName algoName with
    | none => false
    | some hex => if (algoName ++ ":" ++ hex content) = expected_hash then true else false

/-! ## Association-list lemmas -/

theorem alookup_append_of_isSome {α : Type} {l : List (String × α)} (l2 : List (String × α))
    {k : String} (h : (alookup l k).isSome) : alookup (l ++ l2) k = alookup l k := by
  induction l with
  | nil => simp [alookup] at h
  | cons hd tl ih =>
    obtain ⟨k1, v1⟩ := hd
    by_cases hk : k = k1
    · simp [alookup, hk]
    · simp only [alookup, hk, if_false, List.cons_append] at h ⊢
      exact ih h

theorem alookup_isSome_append {α : Type} {l : List (String × α)} (l2 : List (String × α))
    {k : String} (h : (alookup l k).isSome) : (alookup (l ++ l2) k).isSome := by
  rw [alookup_append_of_isSome l2 h]; exact h

theorem alookup_mem_map_snd {α : Type} {l : List (String × α)} {k : String} {v : α}
    (h : alookup l k = some v) : v ∈ l.map Prod.snd := by
  induction l with
  | nil => simp [alookup] at h
  | cons hd tl ih =>
    obtain ⟨k1, v1⟩ := hd
    by_cases hk : k = k1
    · simp [alookup, hk] at h
      simp [h]
    · simp only [alookup, hk, if_false] at h
      simp [ih h]

/-! ## String lemmas -/

theorem string_data_append (s t : String) : (s ++ t).data = s.data ++ t.data := by
  cases s; cases t; rfl

theorem string_eq_of_data_eq {s t : String} (h : s.data = t.data) : s = t := by
  cases s; cases t; exact congrArg String.mk h

/-- The log path is namespaced by the request id: distinct request ids give
distinct log paths. -/
theorem logPathOf_injective {r1 r2 : String} (h : logPathOf r1 = logPathOf r2) : r1 = r2 := by
  have hd := congrArg String.data h
  simp only [logPathOf, string_data_append, List.append_assoc] at hd
  exact string_eq_of_data_eq (List.append_cancel_right (List.append_cancel_left hd))

/-- The mock log text always has content. -/
theorem mockLog_bytes_ne_nil (rid : String) : strBytes (mockLog rid) ≠ [] := by
  simp [strBytes, mockLog, string_data_append]

/-! ## Integrity-verifier lemmas -/

theorem verify_ok_iff {fs : FileSys} {p : String} {b : List Nat} (expected : String)
    (hb : alookup fs p = some b) :
    verify_integrity fs p expected = .ok true ↔ "sha256:" ++ sha256hex b = expected := by
  simp only [verify_integrity, hb]
  split
  · next hne => exact iff_of_false (by simp) hne
  · next heq => exact iff_of_true rfl (not_not.mp heq)

theorem verify_pinned_ok {fs : FileSys} {p : String} {b : List Nat}
    (hb : alookup fs p = some b) :
    verify_integrity fs p ("sha256:" ++ sha256hex b) = .ok true :=
  (verify_ok_iff _ hb).mpr rfl

theorem verify_mismatch {fs : FileSys} {p : String} {b : List Nat} {expected : String}
    (hb : alookup fs p = some b) (hne : "sha256:" ++ sha256hex b ≠ expected) :
    verify_integrity fs p expected = .error .nameErrorSecurityError := by
  simp only [verify_integrity, hb]
  rw [if_pos hne]

theorem verify_missing {fs : FileSys} {p : String} (expected : String)
    (hb : alookup fs p = none) :
    verify_integrity fs p expected = .error (.fileNotFound p) := by
  simp only [verify_integrity, hb]

/-! ## Runner equations -/

theorem run_extract_error {ro : RunnerInput} {e : PyError} (w : World) (root : String)
    (h : extractTaskId ro = .error e) : run w root ro = ⟨[], w.fs, .error e⟩ := by
  simp only [run, h]

theorem run_task_missing {ro : RunnerInput} {tid : String} {w : World} (root : String)
    (h1 : extractTaskId ro = .ok tid) (h2 : alookup w.suite tid = none) :
    run w root ro = ⟨[.getTaskEvent tid], w.fs, .error (.valueErrorTaskNotFound tid)⟩ := by
  simp only [run, h1, h2]

theorem run_verify_error (w : World) (root : String) (ro : RunnerInput) (tid : String)
    (task : AispTask) (e : PyError)
    (h1 : extractTaskId ro = .ok tid) (h2 : alookup w.suite tid = some task)
    (h3 : verify_integrity w.fs (root ++ "/" ++ task.local_evaluator.code_path)
      task.local_evaluator.verification_hash = .error e) :
    run w root ro =
      ⟨[.getTaskEvent tid,
        .verifyEvent (root ++ "/" ++ task.local_evaluator.code_path)
          task.local_evaluator.verification_hash],
       w.fs, .error e⟩ := by
  simp only [run, h1, h2, verifyThenLoad, h3]
  rfl

theorem run_verify_ok (w : World) (root : String) (ro : RunnerInput) (tid : String)
    (task : AispTask) (v : Bool)
    (h1 : extractTaskId ro = .ok tid) (h2 : alookup w.suite tid = some task)
    (h3 : verify_integrity w.fs (root ++ "/" ++ task.local_evaluator.code_path)
      task.local_evaluator.verification_hash = .ok v) :
    run w root ro =
      prependTrace
        [.getTaskEvent tid,
         .verifyEvent (root ++ "/" ++ task.local_evaluator.code_path)
           task.local_evaluator.verification_hash]
        (loadAndRunEvaluator w (modulePathOf root task.local_evaluator.code_path) task ro) := by
  simp only [run, h1, h2, verifyThenLoad, h3, prependTrace]
  rfl

theorem loadAndRun_happy {w : World} {mp : String} {envp dir : String}
    (task : AispTask) (ro : RunnerInput)
    (hmod : alookup w.modules mp = some .sweBenchV1Module)
    (henv : w.swe_bench_env = some envp)
    (hdir : ro.payload.modified_code_dir = some dir) :
    loadAndRunEvaluator w mp task ro =
      ⟨[.importEvent mp, .getattrEvent mp, .instantiateEvent mp, .evaluateEvent ro.request_id],
       fsWrite w.fs (logPathOf ro.request_id) (strBytes (mockLog ro.request_id)),
       .ok ⟨task.task_id, mock_scores, logPathOf ro.request_id⟩⟩ := by
  simp only [loadAndRunEvaluator, hmod, specificEvaluatorInit, henv,
    specificEvaluatorEvaluate, hdir]

/-- The post-verification stage can fail, but never with one of the two faults
`_verify_integrity` raises. -/
theorem loadAndRun_no_integrity_error (w : World) (mp : String) (task : AispTask)
    (ro : RunnerInput) :
    resultIsIntegrityError (loadAndRunEvaluator w mp task ro).result = false := by
  unfold loadAndRunEvaluator
  cases hm : alookup w.modules mp with
  | none => simp [resultIsIntegrityError, isIntegrityError]
  | some m =>
    cases m with
    | moduleWithoutSpecificEvaluator => simp [resultIsIntegrityError, isIntegrityError]
    | sweBenchV1Module =>
      cases henv : w.swe_bench_env with
      | none => simp [specificEvaluatorInit, resultIsIntegrityError, isIntegrityError]
      | some p =>
        cases hdir : ro.payload.modified_code_dir with
        | none =>
          simp [specificEvaluatorInit, specificEvaluatorEvaluate, hdir,
            resultIsIntegrityError, isIntegrityError]
        | some d =>
          simp [specificEvaluatorInit, specificEvaluatorEvaluate, hdir,
            resultIsIntegrityError, isIntegrityError]

/-- Whenever `run` returns metrics, the evaluator wrote them: the task id is
the resolved task, the scores are the mock scores, the log path is namespaced
by the request id, and the final file system holds the freshly written,
non-empty log. -/
theorem run_ok_shape {w : World} {root : String} {ro : RunnerInput} {m : PerformanceMetrics}
    (h : (run w root ro).result = .ok m) :
    m.raw_eval_log = logPathOf ro.request_id ∧
      m.scores = mock_scores ∧
      alookup (run w root ro).fs m.raw_eval_log = some (strBytes (mockLog ro.request_id)) := by
  cases he : extractTaskId ro with
  | error e => rw [run_extract_error w root he] at h ⊢; cases h
  | ok tid =>
    cases ht : alookup w.suite tid with
    | none => rw [run_task_missing root he ht] at h ⊢; cases h
    | some task =>
      cases hv : verify_integrity w.fs (root ++ "/" ++ task.local_evaluator.code_path)
          task.local_evaluator.verification_hash with
      | error e => rw [run_verify_error w root ro tid task e he ht hv] at h ⊢; cases h
      | ok v =>
        rw [run_verify_ok w root ro tid task v he ht hv] at h ⊢
        revert h
        unfold loadAndRunEvaluator prependTrace
        cases hm : alookup w.modules (modulePathOf root task.local_evaluator.code_path) with
        | none => intro h; cases h
        | some md =>
          cases md with
          | moduleWithoutSpecificEvaluator => intro h; cases h
          | sweBenchV1Module =>
            cases henv : w.swe_bench_env with
            | none => intro h; cases h
            | some p =>
              cases hdir : ro.payload.modified_code_dir with
              | none => simp [specificEvaluatorInit, specificEvaluatorEvaluate, hdir]
              | some d =>
                simp [specificEvaluatorInit, specificEvaluatorEvaluate, hdir]
                intro h
                subst h
                simp [fsWrite, alookup]

/-! ## Suite-loader lemmas -/

/-- Every exception `loadTasks` raises is a load-time configuration fault. -/
theorem loadTasks_error_is_config (files : List TaskFile) :
    ∀ acc res e, loadTasks acc files = (res, some e) → isConfigurationFault e = true := by
  induction files with
  | nil => intro acc res e h; simp [loadTasks] at h
  | cons hd tl ih =>
    intro acc res e h
    obtain ⟨fname, r⟩ := hd
    cases r with
    | error msg =>
      simp only [loadTasks, Prod.mk.injEq, Option.some.injEq] at h
      rw [← h.2]; rfl
    | ok t =>
      rw [loadTasks] at h
      split at h
      · simp only [Prod.mk.injEq, Option.some.injEq] at h
        rw [← h.2]; rfl
      · exact ih _ _ _ h

/-- If some later file parses to a task whose id is already indexed, the load
loop raises. -/
theorem loadTasks_fails_of_mem_dup (files : List TaskFile) :
    ∀ acc f t, (f, Except.ok t) ∈ files → (alookup acc t.task_id).isSome →
      (loadTasks acc files).2.isSome := by
  induction files with
  | nil => intro acc f t hmem _; simp at hmem
  | cons hd tl ih =>
    intro acc f t hmem hdup
    obtain ⟨g, r⟩ := hd
    cases r with
    | error msg => simp [loadTasks]
    | ok u =>
      by_cases hu : (alookup acc u.task_id).isSome
      · simp [loadTasks, hu]
      · rcases List.mem_cons.mp hmem with heq | hmem2
        · obtain ⟨-, hut⟩ := Prod.mk.injEq .. ▸ heq
          injection hut with h3
          rw [h3] at hdup
          exact absurd hdup hu
        · simp only [loadTasks, hu, if_false]
          exact ih _ f t hmem2 (alookup_isSome_append _ hdup)

/-- If a leading run of files loads cleanly, loading the whole list continues
from the state that run produced. -/
theorem loadTasks_append_ok (l1 : List TaskFile) :
    ∀ acc acc2 l2, loadTasks acc l1 = (acc2, none) →
      loadTasks acc (l1 ++ l2) = loadTasks acc2 l2 := by
  induction l1 with
  | nil =>
    intro acc acc2 l2 h
    simp only [loadTasks, Prod.mk.injEq] at h
    rw [List.nil_append, h.1]
  | cons hd tl ih =>
    intro acc acc2 l2 h
    obtain ⟨g, r⟩ := hd
    cases r with
    | error msg => simp [loadTasks] at h
    | ok u =>
      rw [loadTasks] at h
      split at h
      · simp at h
      · next hu =>
        rw [List.cons_append, loadTasks]
        rw [if_neg hu]
        exact ih _ _ _ h

/-! ## Further helper lemmas -/

theorem string_append_cancel_left {s t u : String} (h : s ++ t = s ++ u) : t = u := by
  have hd := congrArg String.data h
  simp only [string_data_append] at hd
  exact string_eq_of_data_eq (List.append_cancel_left hd)

theorem alookup_append_self {α : Type} (acc : List (String × α)) (k : String) (v : α) :
    (alookup (acc ++ [(k, v)]) k).isSome := by
  induction acc with
  | nil => simp [alookup]
  | cons hd tl ih =>
    obtain ⟨k1, v1⟩ := hd
    by_cases hk : k = k1 <;> simp only [List.cons_append, alookup, hk, if_true, if_false] <;>
      simp [ih]

theorem loadTasks_snd_error_is_config {files : List TaskFile}
    {acc : List (String × AispTask)} {e : PyError}
    (h : (loadTasks acc files).2 = some e) : isConfigurationFault e = true :=
  loadTasks_error_is_config files acc (loadTasks acc files).1 e (by rw [← h])

/-- The errors step 1 of `run` can raise are never the integrity faults. -/
theorem extractTaskId_error_not_integrity (ro : RunnerInput) (e : PyError)
    (h : extractTaskId ro = .error e) : isIntegrityError e = false := by
  unfold extractTaskId at h
  cases hrt : ro.research_type with
  | none =>
    simp only [hrt] at h
    injection h with he
    rw [← he]; rfl
  | some rt =>
    simp only [hrt] at h
    by_cases hin : rt = "improvement" ∨ rt = "technique_report"
    · rw [if_pos hin] at h
      cases hpg : ro.payload.performance_gain with
      | none =>
        simp only [hpg] at h
        injection h with he
        rw [← he]; rfl
      | some l =>
        simp only [hpg] at h
        cases l with
        | nil => injection h with he; rw [← he]; rfl
        | cons m rest => exact Except.noConfusion h
    · rw [if_neg hin] at h
      injection h with he
      rw [← he]; rfl

/-- The full happy-path equation for `run`, given a resolvable task, an
artifact matching its pinned hash, an importable `swe_bench_v1` module, the
environment variable and an improvement payload. -/
theorem run_happy_eq (w : World) (root : String) (ro : RunnerInput) (tid : String)
    (task : AispTask) (b : List Nat) (envp dir : String)
    (h1 : extractTaskId ro = .ok tid) (h2 : alookup w.suite tid = some task)
    (hb : alookup w.fs (root ++ "/" ++ task.local_evaluator.code_path) = some b)
    (hpin : task.local_evaluator.verification_hash = "sha256:" ++ sha256hex b)
    (hmod : alookup w.modules (modulePathOf root task.local_evaluator.code_path) =
      some .sweBenchV1Module)
    (henv : w.swe_bench_env = some envp)
    (hdir : ro.payload.modified_code_dir = some dir) :
    run w root ro =
      ⟨[.getTaskEvent tid,
        .verifyEvent (root ++ "/" ++ task.local_evaluator.code_path)
          task.local_evaluator.verification_hash,
        .importEvent (modulePathOf root task.local_evaluator.code_path),
        .getattrEvent (modulePathOf root task.local_evaluator.code_path),
        .instantiateEvent (modulePathOf root task.local_evaluator.code_path),
        .evaluateEvent ro.request_id],
       fsWrite w.fs (logPathOf ro.request_id) (strBytes (mockLog ro.request_id)),
       .ok ⟨task.task_id, mock_scores, logPathOf ro.request_id⟩⟩ := by
  have hv : verify_integrity w.fs (root ++ "/" ++ task.local_evaluator.code_path)
      task.local_evaluator.verification_hash = .ok true := by
    rw [hpin]; exact verify_pinned_ok hb
  rw [run_verify_ok w root ro tid task true h1 h2 hv, loadAndRun_happy task ro hmod henv hdir]
  rfl

/-! ## Concrete scenario data -/

/-- The pinned artifact content of the concrete scenarios. -/
def artifactBytes : List Nat := [0]

/-- The artifact content after a one-byte tamper. -/
def tamperedBytes : List Nat := [1]

/-- A concrete catalog task whose evaluator binding pins the SHA-256 digest of
`artifactBytes`. -/
def sampleTask : AispTask :=
  { task_id := "agent-swe-bench-v1"
    task_name := "SWE-bench"
    version := "1.0"
    domain := "software-agents"
    sub_domain := "program-repair"
    task_description := "resolve repository issues"
    source := ⟨"SWE-bench paper", "https://example.org/paper", "https://example.org/board"⟩
    metrics := [⟨"Resolved @1", "fraction of issues resolved", true⟩]
    sota_baseline := ⟨"baseline-method", "sota-1", [("Resolved @1", 0.12)],
      "baseline summary", [("entry", "run.sh")]⟩
    local_evaluator := ⟨"swe_bench_eval", "1.0.2", "evaluators/swe_bench_v1.py",
      "sha256:" ++ sha256hex artifactBytes⟩ }

/-- A second record carrying the same `task_id`. -/
def sampleTask2 : AispTask := { sampleTask with task_name := "SWE-bench duplicate" }

/-- The benchmarks root directory of the runner. -/
def benchRoot : String := "aisp/benchmark"

/-- Where the runner resolves the sample task artifact. -/
def sampleArtifactPath : String := benchRoot ++ "/" ++ sampleTask.local_evaluator.code_path

/-- The module name the runner derives for the sample task. -/
def sampleModulePath : String := modulePathOf benchRoot sampleTask.local_evaluator.code_path

/-- A world in which everything is in place: the task is registered, the
artifact bytes hash to the pinned digest, the module imports, the environment
variable is set. -/
def happyWorld : World :=
  { fs := [(sampleArtifactPath, artifactBytes)]
    suite := [("agent-swe-bench-v1", sampleTask)]
    modules := [(sampleModulePath, .sweBenchV1Module)]
    swe_bench_env := some "/opt/swe_bench_env" }

/-- The happy world with the artifact content changed by one byte after
pinning. -/
def tamperWorld : World := { happyWorld with fs := [(sampleArtifactPath, tamperedBytes)] }

/-- The happy world with an empty task catalog. -/
def emptySuiteWorld : World := { happyWorld with suite := [] }

/-- The happy world with no importable modules. -/
def noModuleWorld : World := { happyWorld with modules := [] }

/-- A prior metrics record naming the sample task, as carried inside an
improvement payload. -/
def inputMetrics : PerformanceMetrics :=
  ⟨"agent-swe-bench-v1", [("Resolved @1", 0.1)], "./prior.log"⟩

/-- A runner input carrying every attribute the pipeline reads, with the
`improvement` research type. -/
def duckInput : RunnerInput :=
  { request_id := "req-001"
    research_type := some "improvement"
    payload := ⟨"improvement", some [inputMetrics], some "./modified_code"⟩ }

/-- The same request under a different request id. -/
def duckInput2 : RunnerInput := { duckInput with request_id := "req-002" }

/-- A report body for the protocol-model output. -/
def sampleReport : PaperContent :=
  ⟨"Improving SWE-bench", ["AI Scientist"], "abstract", "report body", []⟩

/-- A protocol-conformant improvement `ResearchOutput` naming the sample
task. -/
def protocolOutput : ResearchOutput :=
  { request_id := "req-001"
    payload := .improvement [inputMetrics] "./modified_code" sampleReport
    logbook_path := "./logbook.json" }

/-! ## The claims -/

/-- C1: in `LocalEvaluatorRunner.run`, `_verify_integrity` is invoked and must
succeed before any code of the artifact is loaded or executed: in every
execution in which the integrity check raises, the integrity check was
invoked, yet no `import_module`, no `getattr`, no instantiation and no
evaluator call happens. -/
theorem c1_integrity_raise_blocks_code_loading (w : World) (root : String) (ro : RunnerInput)
    (h : resultIsIntegrityError (run w root ro).result = true) :
    codeLoadCount (run w root ro).trace = 0 ∧
      instantiationCount (run w root ro).trace = 0 ∧
      ∃ p exp, Event.verifyEvent p exp ∈ (run w root ro).trace := by
  cases he : extractTaskId ro with
  | error e =>
    rw [run_extract_error w root he] at h
    simp only [resultIsIntegrityError] at h
    rw [extractTaskId_error_not_integrity ro e he] at h
    cases h
  | ok tid =>
    cases ht : alookup w.suite tid with
    | none =>
      rw [run_task_missing root he ht] at h
      simp [resultIsIntegrityError, isIntegrityError] at h
    | some task =>
      cases hv : verify_integrity w.fs (root ++ "/" ++ task.local_evaluator.code_path)
          task.local_evaluator.verification_hash with
      | error e =>
        rw [run_verify_error w root ro tid task e he ht hv]
        refine ⟨?_, ?_, ?_⟩
        · simp [codeLoadCount, List.countP_cons, isCodeLoadEvent]
        · simp [instantiationCount, List.countP_cons]
        · exact ⟨root ++ "/" ++ task.local_evaluator.code_path,
            task.local_evaluator.verification_hash, by simp⟩
      | ok v =>
        rw [run_verify_ok w root ro tid task v he ht hv] at h
        simp only [prependTrace] at h
        rw [loadAndRun_no_integrity_error] at h
        cases h

/-- C1 witness: with the sample artifact tampered from `[0]` to `[1]`, the
integrity check raises and the trace carries no code-loading event. -/
theorem c1_witness :
    resultIsIntegrityError (run tamperWorld benchRoot duckInput).result = true ∧
      codeLoadCount (run tamperWorld benchRoot duckInput).trace = 0 := by
  have hi : resultIsIntegrityError (run tamperWorld benchRoot duckInput).result = true := by
    have hr := run_verify_error tamperWorld benchRoot duckInput "agent-swe-bench-v1"
      sampleTask .nameErrorSecurityError rfl rfl
      (verify_mismatch (b := tamperedBytes) (by decide) (by decide))
    rw [hr]
    rfl
  exact ⟨hi, (c1_integrity_raise_blocks_code_loading tamperWorld benchRoot duckInput hi).1⟩

/-- C2: on a digest mismatch over an existing artifact, `_verify_integrity`
evaluates `raise SecurityError(...)`; `SecurityError` is an undefined name, so
what is actually raised is a `NameError` carrying neither digest — not the
documented integrity fault with both digest values (the fault is still
distinct from the missing-file fault and still aborts). -/
theorem c2_hash_mismatch_raises_undefined_name :
    verify_integrity [(sampleArtifactPath, tamperedBytes)] sampleArtifactPath
        ("sha256:" ++ sha256hex artifactBytes) = .error .nameErrorSecurityError ∧
      (PyError.nameErrorSecurityError ≠ PyError.fileNotFound sampleArtifactPath) := by
  exact ⟨verify_mismatch (b := tamperedBytes) (by decide) (by decide), by decide⟩

/-- C3: every value of the protocol model `ResearchOutput` (whose kind tag is
`payload.type`, with no top-level `research_type` field) makes `run` raise
`AttributeError` on reading `research_output.research_type` — before any task
lookup, integrity verification or evaluator execution, so `run` never returns
a `PerformanceMetrics` for such an input. -/
theorem c3_protocol_output_crashes_before_pipeline (w : World) (root : String)
    (r : ResearchOutput) :
    run w root r.toRunnerInput = ⟨[], w.fs, .error (.attributeError "research_type")⟩ :=
  rfl

/-- C4: the end-to-end happy path is broken by the `research_type` slip: on a
fully valid world (registered task, artifact hashing to the pinned digest,
loadable evaluator, environment set), the protocol-conformant request
crashes with `AttributeError` before any metrics are produced — while the
same pipeline on an input that additionally carries a `research_type`
attribute returns metrics for the task, showing the attribute read is the
only failure. -/
theorem c4_protocol_request_never_yields_metrics :
    run happyWorld benchRoot protocolOutput.toRunnerInput =
        ⟨[], happyWorld.fs, .error (.attributeError "research_type")⟩ ∧
      (run happyWorld benchRoot duckInput).result =
        .ok ⟨sampleTask.task_id, mock_scores, logPathOf "req-001"⟩ ∧
      alookup (run happyWorld benchRoot duckInput).fs (logPathOf "req-001") =
        some (strBytes (mockLog "req-001")) ∧
      strBytes (mockLog "req-001") ≠ [] := by
  have hr := run_happy_eq happyWorld benchRoot duckInput "agent-swe-bench-v1" sampleTask
    artifactBytes "/opt/swe_bench_env" "./modified_code" rfl rfl (by decide) rfl rfl rfl rfl
  refine ⟨rfl, ?_, ?_, mockLog_bytes_ne_nil "req-001"⟩
  · rw [hr]
    rfl
  · rw [hr]
    simp only [fsWrite, alookup]
    rw [if_pos (show logPathOf "req-001" = logPathOf duckInput.request_id from rfl)]
    rfl

set_option maxRecDepth 40000 in
/-- C5 counterexample: the claim reads the digest algorithm off the prefix of
`expected_hash`; pin the artifact under a `sha1:` hash whose digest matches —
the spec-side verifier accepts, but `_verify_integrity` hashes with SHA-256
regardless of the prefix and raises, so the claimed ok-iff equivalence is
false at this input. -/
theorem c5_prefix_algorithm_counterexample :
    specVerifyOk [("a.py", artifactBytes)] "a.py" ("sha1:" ++ sha1hex artifactBytes) = true ∧
      verify_integrity [("a.py", artifactBytes)] "a.py" ("sha1:" ++ sha1hex artifactBytes) =
        .error .nameErrorSecurityError := by
  constructor
  · decide
  · exact verify_mismatch (b := artifactBytes) (by decide) (by decide)

/-- C5 amended: `_verify_integrity` computes SHA-256 over the exact bytes no
matter what algorithm the prefix of `expected_hash` names, and returns ok iff
the string `sha256:` + hexdigest equals `expected_hash`; mutating the
artifact after pinning flips the result from ok to a raised error — the
undefined-name `NameError`, not a digest-carrying integrity fault — whenever
the mutated content hashes differently. -/
theorem c5_sha256_regardless_of_prefix (fs fs2 : FileSys) (p : String) (b b2 : List Nat)
    (expected : String) (hb : alookup fs p = some b) (hb2 : alookup fs2 p = some b2)
    (hdiff : sha256hex b2 ≠ sha256hex b) :
    (verify_integrity fs p expected = .ok true ↔ "sha256:" ++ sha256hex b = expected) ∧
      verify_integrity fs p ("sha256:" ++ sha256hex b) = .ok true ∧
      verify_integrity fs2 p ("sha256:" ++ sha256hex b) = .error .nameErrorSecurityError := by
  refine ⟨verify_ok_iff expected hb, verify_pinned_ok hb, verify_mismatch hb2 ?_⟩
  intro hcontra
  exact hdiff (string_append_cancel_left hcontra)

/-- C5 witness: the pinned one-byte artifact `[0]` verifies against its own
digest, and the single-byte mutation to `[1]` (whose SHA-256 digest differs)
flips verification to the raised error. -/
theorem c5_witness :
    verify_integrity [("a.py", artifactBytes)] "a.py" ("sha256:" ++ sha256hex artifactBytes) =
        .ok true ∧
      verify_integrity [("a.py", tamperedBytes)] "a.py"
        ("sha256:" ++ sha256hex artifactBytes) = .error .nameErrorSecurityError := by
  have h := c5_sha256_regardless_of_prefix [("a.py", artifactBytes)] [("a.py", tamperedBytes)]
    "a.py" artifactBytes tamperedBytes "unused" (by decide) (by decide) (by decide)
  exact ⟨h.2.1, h.2.2⟩

/-- C6 counterexample: evaluator resolution is not a closed registry — with
the sample task registered and its artifact verified, `run` attempts a
dynamic `import_module` keyed by the module name derived from the task
configuration field `code_path`, and when that module is not importable it
fails with the catch-all `RuntimeError`, not a dedicated unknown-evaluator
fault (no such fault exists in the pipeline). -/
theorem c6_dynamic_import_counterexample :
    Event.importEvent (modulePathOf benchRoot sampleTask.local_evaluator.code_path) ∈
        (run noModuleWorld benchRoot duckInput).trace ∧
      (run noModuleWorld benchRoot duckInput).result =
        .error (.runtimeErrorLoadFailed
          (modulePathOf benchRoot sampleTask.local_evaluator.code_path)) := by
  have hr := run_verify_ok noModuleWorld benchRoot duckInput "agent-swe-bench-v1"
    sampleTask true rfl rfl
    (by rw [show sampleTask.local_evaluator.verification_hash =
        "sha256:" ++ sha256hex artifactBytes from rfl]
        exact verify_pinned_ok (by decide))
  rw [hr]
  constructor
  · simp [prependTrace, loadAndRunEvaluator, alookup]
  · simp [prependTrace, loadAndRunEvaluator, alookup]

/-- C6 amended: whenever the derived module name has no importable module
behind it, `run` fails with the `RuntimeError` raised from the caught
`ImportError`, never falling back to a default evaluator — and the trace
shows the dynamic import attempt keyed by the configured `code_path`. -/
theorem c6_unregistered_module_runtime_error (w : World) (root : String) (ro : RunnerInput)
    (tid : String) (task : AispTask) (v : Bool)
    (h1 : extractTaskId ro = .ok tid) (h2 : alookup w.suite tid = some task)
    (h3 : verify_integrity w.fs (root ++ "/" ++ task.local_evaluator.code_path)
      task.local_evaluator.verification_hash = .ok v)
    (hmod : alookup w.modules (modulePathOf root task.local_evaluator.code_path) = none) :
    (run w root ro).result =
        .error (.runtimeErrorLoadFailed (modulePathOf root task.local_evaluator.code_path)) ∧
      Event.importEvent (modulePathOf root task.local_evaluator.code_path) ∈
        (run w root ro).trace := by
  rw [run_verify_ok w root ro tid task v h1 h2 h3]
  unfold loadAndRunEvaluator
  rw [hmod]
  exact ⟨rfl, by simp [prependTrace]⟩

/-- C6 witness: the amended behaviour at the concrete no-module world. -/
theorem c6_witness :
    (run noModuleWorld benchRoot duckInput).result =
      .error (.runtimeErrorLoadFailed
        (modulePathOf benchRoot sampleTask.local_evaluator.code_path)) := by
  exact (c6_unregistered_module_runtime_error noModuleWorld benchRoot duckInput
    "agent-swe-bench-v1" sampleTask true rfl rfl
    (by rw [show sampleTask.local_evaluator.verification_hash =
        "sha256:" ++ sha256hex artifactBytes from rfl]
        exact verify_pinned_ok (by decide))
    rfl).1

/-- C7: when the governing task id extracted from the request is absent from
the catalog, `run` fails with the task-not-found `ValueError` and no
evaluator code is loaded, instantiated or invoked — the instantiation count
of the trace is zero. -/
theorem c7_absent_task_fails_without_evaluator (w : World) (root : String)
    (ro : RunnerInput) (tid : String)
    (h1 : extractTaskId ro = .ok tid)
    (habs : alookup w.suite tid = none) :
    (run w root ro).result = .error (.valueErrorTaskNotFound tid) ∧
      instantiationCount (run w root ro).trace = 0 ∧
      codeLoadCount (run w root ro).trace = 0 := by
  rw [run_task_missing root h1 habs]
  refine ⟨rfl, ?_, ?_⟩
  · simp [instantiationCount, List.countP_cons]
  · simp [codeLoadCount, List.countP_cons, isCodeLoadEvent]

/-- C7 witness: a request naming the sample task against an empty catalog. -/
theorem c7_witness :
    (run emptySuiteWorld benchRoot duckInput).result =
        .error (.valueErrorTaskNotFound "agent-swe-bench-v1") ∧
      instantiationCount (run emptySuiteWorld benchRoot duckInput).trace = 0 := by
  have h := c7_absent_task_fails_without_evaluator emptySuiteWorld benchRoot duckInput
    "agent-swe-bench-v1" rfl rfl
  exact ⟨h.1, h.2.1⟩

/-- Any file list containing two ok-parsing records with the same task id
makes the load loop raise, wherever the two records sit. -/
theorem loadTasks_dup_pair (l1 : List TaskFile) :
    ∀ (tasks0 : List (String × AispTask)) (l2 l3 : List TaskFile) (f1 f2 : String)
      (t1 t2 : AispTask), t1.task_id = t2.task_id →
      (loadTasks tasks0 (l1 ++ (f1, Except.ok t1) :: l2 ++ (f2, Except.ok t2) :: l3)).2.isSome := by
  induction l1 with
  | nil =>
    intro tasks0 l2 l3 f1 f2 t1 t2 hid
    rw [List.nil_append]
    simp only [loadTasks]
    split
    · simp
    · refine loadTasks_fails_of_mem_dup _ _ f2 t2 ?_ ?_
      · exact List.mem_append.mpr (Or.inr (List.mem_cons_self _ _))
      · rw [← hid]
        exact alookup_append_self tasks0 t1.task_id t1
  | cons hd tl ih =>
    intro tasks0 l2 l3 f1 f2 t1 t2 hid
    obtain ⟨g, r⟩ := hd
    cases r with
    | error msg => simp [loadTasks]
    | ok u =>
      rw [List.cons_append]
      simp only [loadTasks]
      split
      · simp
      · exact ih _ l2 l3 f1 f2 t1 t2 hid

/-- C8: a directory whose records include two that share a `task_id` always
makes `load_from_directory` fail with a load-time configuration fault,
whatever the processing order — the duplicate check runs against everything
already loaded in the call, not just the preceding record. -/
theorem c8_duplicate_task_id_always_faults (tasks0 : List (String × AispTask))
    (l1 l2 l3 : List TaskFile) (f1 f2 : String) (t1 t2 : AispTask)
    (hid : t1.task_id = t2.task_id) :
    ∃ e, (load_from_directory tasks0
        (some (l1 ++ (f1, Except.ok t1) :: l2 ++ (f2, Except.ok t2) :: l3))).2 = some e ∧
      isConfigurationFault e = true := by
  have hs := loadTasks_dup_pair l1 tasks0 l2 l3 f1 f2 t1 t2 hid
  obtain ⟨e, he⟩ := Option.isSome_iff_exists.mp hs
  exact ⟨e, he, loadTasks_snd_error_is_config he⟩

/-- C8 witness: two concrete records with the same id, in either role. -/
theorem c8_witness :
    ∃ e, (load_from_directory []
        (some [("a.json", Except.ok sampleTask), ("b.json", Except.ok sampleTask2)])).2 =
          some e ∧
      isConfigurationFault e = true :=
  c8_duplicate_task_id_always_faults [] [] [] [] "a.json" "b.json" sampleTask sampleTask2 rfl

/-- The file system after the first happy run: the log for `req-001` has been
written on top of the pristine happy world. -/
def secondRunWorld : World := { happyWorld with fs := (run happyWorld benchRoot duckInput).fs }

/-- C9 counterexample: running the same valid request (same `request_id`)
twice produces two `PerformanceMetrics` with the SAME log artifact path — the
path is a pure function of the request id, so the second run rewrites the
first log instead of producing a distinct one. -/
theorem c9_same_request_id_same_log_path :
    (run happyWorld benchRoot duckInput).result =
        .ok ⟨sampleTask.task_id, mock_scores, logPathOf "req-001"⟩ ∧
      (run secondRunWorld benchRoot duckInput).result =
        .ok ⟨sampleTask.task_id, mock_scores, logPathOf "req-001"⟩ := by
  have h1 := run_happy_eq happyWorld benchRoot duckInput "agent-swe-bench-v1" sampleTask
    artifactBytes "/opt/swe_bench_env" "./modified_code" rfl rfl (by decide) rfl rfl rfl rfl
  have hfs : secondRunWorld.fs =
      fsWrite happyWorld.fs (logPathOf "req-001") (strBytes (mockLog "req-001")) := by
    show (run happyWorld benchRoot duckInput).fs = _
    rw [h1]
    rfl
  have h2 := run_happy_eq secondRunWorld benchRoot duckInput "agent-swe-bench-v1" sampleTask
    artifactBytes "/opt/swe_bench_env" "./modified_code"
    rfl rfl (by rw [hfs]; decide) rfl rfl rfl rfl
  constructor
  · rw [h1]
    rfl
  · rw [h2]
    rfl

/-- C9 amended: whenever two runs both return metrics, equal request ids give
the SAME log path (the second run overwrites the first), while distinct
request ids always give distinct log paths — the namespacing by `request_id`
makes cross-request overwriting structurally impossible. -/
theorem c9_log_paths_namespaced_by_request_id (w w2 : World) (root root2 : String)
    (ro ro2 : RunnerInput) (m m2 : PerformanceMetrics)
    (h1 : (run w root ro).result = .ok m) (h2 : (run w2 root2 ro2).result = .ok m2) :
    (ro.request_id = ro2.request_id → m.raw_eval_log = m2.raw_eval_log) ∧
      (ro.request_id ≠ ro2.request_id → m.raw_eval_log ≠ m2.raw_eval_log) := by
  obtain ⟨hp1, -, -⟩ := run_ok_shape h1
  obtain ⟨hp2, -, -⟩ := run_ok_shape h2
  rw [hp1, hp2]
  exact ⟨fun h => by rw [h], fun h hc => h (logPathOf_injective hc)⟩

/-- C9 witness: two successful runs under distinct request ids have distinct
log paths. -/
theorem c9_witness :
    (⟨sampleTask.task_id, mock_scores, logPathOf "req-001"⟩ : PerformanceMetrics).raw_eval_log ≠
      (⟨sampleTask.task_id, mock_scores, logPathOf "req-002"⟩ : PerformanceMetrics).raw_eval_log := by
  have hr1 : (run happyWorld benchRoot duckInput).result =
      .ok ⟨sampleTask.task_id, mock_scores, logPathOf "req-001"⟩ := by
    rw [run_happy_eq happyWorld benchRoot duckInput "agent-swe-bench-v1" sampleTask
      artifactBytes "/opt/swe_bench_env" "./modified_code"
      rfl rfl (by decide) rfl rfl rfl rfl]
    rfl
  have hr2 : (run happyWorld benchRoot duckInput2).result =
      .ok ⟨sampleTask.task_id, mock_scores, logPathOf "req-002"⟩ := by
    rw [run_happy_eq happyWorld benchRoot duckInput2 "agent-swe-bench-v1" sampleTask
      artifactBytes "/opt/swe_bench_env" "./modified_code"
      rfl rfl (by decide) rfl rfl rfl rfl]
    rfl
  exact (c9_log_paths_namespaced_by_request_id happyWorld happyWorld benchRoot benchRoot
    duckInput duckInput2 _ _ hr1 hr2).2 (by decide)

/-- C10: `load_from_directory` is not all-or-nothing — if a later record
fails (malformed, or a duplicate of anything already loaded), the exception
aborts the loop but every task inserted from the earlier files stays in the
index, and `get_task` / `list_tasks` keep serving them. -/
theorem c10_failed_load_keeps_earlier_tasks (tasks0 acc2 : List (String × AispTask))
    (l1 l2 : List TaskFile) (fname : String) (r : Except String AispTask)
    (hpre : loadTasks tasks0 l1 = (acc2, none))
    (hfail : match r with
      | .error _ => True
      | .ok t => (alookup acc2 t.task_id).isSome = true) :
    (load_from_directory tasks0 (some (l1 ++ (fname, r) :: l2))).1 = acc2 ∧
      (load_from_directory tasks0 (some (l1 ++ (fname, r) :: l2))).2.isSome = true ∧
      ∀ k t, alookup acc2 k = some t →
        get_task (load_from_directory tasks0 (some (l1 ++ (fname, r) :: l2))).1 k = some t ∧
          t ∈ list_tasks (load_from_directory tasks0 (some (l1 ++ (fname, r) :: l2))).1 := by
  have hload : load_from_directory tasks0 (some (l1 ++ (fname, r) :: l2)) =
      loadTasks acc2 ((fname, r) :: l2) := by
    show loadTasks tasks0 (l1 ++ (fname, r) :: l2) = _
    exact loadTasks_append_ok l1 tasks0 acc2 _ hpre
  cases r with
  | error msg =>
    rw [hload]
    simp only [loadTasks]
    refine ⟨?_, ?_, fun k t hk => ⟨hk, alookup_mem_map_snd hk⟩⟩ <;> trivial
  | ok t0 =>
    rw [hload]
    simp only [loadTasks]
    rw [if_pos hfail]
    refine ⟨?_, ?_, fun k t hk => ⟨hk, alookup_mem_map_snd hk⟩⟩ <;> trivial

/-- C10 witness: a two-file directory whose second record duplicates the
first — the first task survives the aborted load and is served by
`get_task`. -/
theorem c10_witness :
    get_task (load_from_directory []
        (some [("a.json", Except.ok sampleTask), ("b.json", Except.ok sampleTask2)])).1
      "agent-swe-bench-v1" = some sampleTask := by
  have h := c10_failed_load_keeps_earlier_tasks [] [("agent-swe-bench-v1", sampleTask)]
    [("a.json", Except.ok sampleTask)] [] "b.json" (Except.ok sampleTask2) rfl rfl
  exact (h.2.2 "agent-swe-bench-v1" sampleTask rfl).1
